import Mathlib

/-!
Verification of `StripeCheckout.tsx`
(`src/packages/keychain/src/components/funding/purchase/StripeCheckout.tsx`).

The component is a thin UI wrapper: a submit handler around an external
`stripe.confirmPayment` call, two widget callbacks (`onReady`, `onChange`),
a disabled predicate on the Purchase button, and a pure currency formatter.

Embedding choices:
* Component state (`isLoading`, `isSubmitting`, `error`) is a record
  `CheckoutState`.  A JavaScript `Error` value is represented by its
  `message` string; `new Error(undefined)` has `message === ""`, which is
  encoded with `Option.getD ""` at the construction site.
* `useStripe` / `useElements` may each return `null`; they are embedded as
  `Option Unit` (the stripe handle is opaque) and `Option Nat` (the
  elements handle, an opaque identifier that is forwarded to the
  confirmation call).
* `handleSubmit` is an async handler whose only effects are React state
  setters, the `stripe.confirmPayment` call and the `onComplete` callback.
  It is embedded as a function producing the list of effect `Event`s the
  handler performs, given the availability of `stripe` / `elements` and
  the behaviour `ConfirmOutcome` of the awaited confirmation call
  (resolving with an optional structured error, or throwing).  `runEvents`
  folds the state-setter events over a prior state.
* JavaScript `String.includes` is substring containment, embedded as
  `List.IsInfix` on the character lists (decidable, hence executable).
* `toFixed(2)` applied to `cents / 100`: for non-negative integer `cents`
  (within double precision) the quotient is an exact two-decimal value and
  `toFixed(2)` renders it exactly, so `formatCurrency` is embedded as
  exact natural-number arithmetic: integral part, a dot, and the
  zero-padded two-digit remainder.
-/

/-- Pricing input supplied by the caller (`PricingDetails` from
`PurchaseCredits`); all three amounts are non-negative integer cents,
embedded as `Nat`. -/
structure PricingDetails where
  baseCostInCents : Nat
  processingFeeInCents : Nat
  totalInCents : Nat
deriving DecidableEq, Repr

/-- The component's local React state: `isLoading`, `isSubmitting`,
`error` (the optional `Error`, carried as its message string). -/
structure CheckoutState where
  isLoading : Bool
  isSubmitting : Bool
  error : Option String
deriving DecidableEq, Repr

/-- Initial state on mount: `useState(true)`, `useState(false)`,
`useState<Error>()`. -/
def initialState : CheckoutState :=
  { isLoading := true, isSubmitting := false, error := none }

/-- The structured error a resolved `confirmPayment` result may carry;
its `message` field may be absent (`undefined`), hence `Option String`. -/
structure StripeError where
  message : Option String
deriving DecidableEq, Repr

/-- Behaviour of the awaited `stripe.confirmPayment` call: it either
resolves with a result whose `error` field is present or absent, or it
throws an exception carrying a message. -/
inductive ConfirmOutcome where
  | resolved (error : Option StripeError)
  | raised (message : String)
deriving DecidableEq, Repr

/-- The arguments the component passes to `stripe.confirmPayment`:
the elements handle, `confirmParams.return_url`, and the redirect
policy string. -/
structure ConfirmArgs where
  elements : Nat
  returnUrl : String
  redirect : String
deriving DecidableEq, Repr

/-- One observable effect of `handleSubmit`: a state-setter call, the
external confirmation call, or the `onComplete` callback. -/
inductive Event where
  | setIsSubmitting (b : Bool)
  | confirmPayment (args : ConfirmArgs)
  | setError (e : Option String)
  | callOnComplete
deriving DecidableEq, Repr

/-- The exception-message fragment matched by the catch block:
`"Failed to set the 'href' property"`. -/
def hrefFailureMessage : String := "Failed to set the \x27href\x27 property"

/-- Embedding of `handleSubmit`, as the list of effects it performs.
Mirrors the source line by line: guard on `!stripe || !elements` (no
effects); `setIsSubmitting(true)`; the `confirmPayment` call with
`elements`, `return_url: "http://cartridge.gg"`, `redirect:
"if_required"`; on a resolved result with an `error` field,
`setError(new Error(res.error.message))` and return; on a resolved
result without one, `onComplete()`; on a thrown exception whose message
includes `hrefFailureMessage`, `setError(new Error("Payment
unsupported"))`, otherwise `setError(e)`; in all non-guard paths the
`finally` block runs `setIsSubmitting(false)`. -/
def handleSubmit (stripe : Option Unit) (elements : Option Nat)
    (outcome : ConfirmOutcome) : List Event :=
  match stripe, elements with
  | some _, some els =>
    [Event.setIsSubmitting true,
     Event.confirmPayment ⟨els, "http://cartridge.gg", "if_required"⟩] ++
      (match outcome with
        | ConfirmOutcome.resolved (some err) =>
            [Event.setError (some (err.message.getD ""))]
        | ConfirmOutcome.resolved none =>
            [Event.callOnComplete]
        | ConfirmOutcome.raised msg =>
            if hrefFailureMessage.toList <:+: msg.toList then
              [Event.setError (some "Payment unsupported")]
            else
              [Event.setError (some msg)]) ++
      [Event.setIsSubmitting false]
  | _, _ => []

/-- Effect of a single state-setter event on the component state; the
external call and the callback do not change local state. -/
def applyEvent (s : CheckoutState) : Event → CheckoutState
  | Event.setIsSubmitting b => { s with isSubmitting := b }
  | Event.confirmPayment _ => s
  | Event.setError e => { s with error := e }
  | Event.callOnComplete => s

/-- Fold a list of effects over a prior state. -/
def runEvents (s : CheckoutState) (es : List Event) : CheckoutState :=
  es.foldl applyEvent s

/-- The component state after `handleSubmit` runs to completion. -/
def submitState (stripe : Option Unit) (elements : Option Nat)
    (s : CheckoutState) (outcome : ConfirmOutcome) : CheckoutState :=
  runEvents s (handleSubmit stripe elements outcome)

/-- Number of `onComplete()` invocations among the effects. -/
def onCompleteCount (es : List Event) : Nat :=
  es.countP fun e =>
    match e with
    | Event.callOnComplete => true
    | _ => false

/-- The arguments of every external confirmation call among the effects,
in order. -/
def confirmCallArgs (es : List Event) : List ConfirmArgs :=
  es.filterMap fun e =>
    match e with
    | Event.confirmPayment a => some a
    | _ => none

/-- Embedding of the `PaymentElement` `onChange` handler:
`setError(undefined)`. -/
def handleChange (s : CheckoutState) : CheckoutState :=
  { s with error := none }

/-- Embedding of the `PaymentElement` `onReady` handler:
`setIsLoading(false)`. -/
def handleReady (s : CheckoutState) : CheckoutState :=
  { s with isLoading := false }

/-- The Purchase button's `disabled` prop:
`isSubmitting || !stripe || !elements || isLoading`. -/
def purchaseDisabled (stripe : Option Unit) (elements : Option Nat)
    (s : CheckoutState) : Bool :=
  s.isSubmitting || stripe.isNone || elements.isNone || s.isLoading

/-- The error banner in the footer: rendered only when `error` is set,
with fixed title `"Stripe Checkout Error"` and the error's message as
description. -/
def errorBanner (s : CheckoutState) : Option (String × String) :=
  s.error.map fun m => ("Stripe Checkout Error", m)

/-- Embedding of `formatCurrency` inside `CostBreakdown`:
`` `$${(cents / 100).toFixed(2)}` ``.  For a non-negative integer number
of cents the JavaScript expression renders the exact value of
`cents / 100` with two decimals, i.e. the integral part, a dot, and the
remainder mod 100 padded to two digits. -/
def formatCurrency (cents : Nat) : String :=
  "$" ++ toString (cents / 100) ++ "." ++
    (if cents % 100 < 10 then "0" ++ toString (cents % 100)
     else toString (cents % 100))

/-- The three formatted amounts `CostBreakdown` renders: the Cost row,
the Processing Fee row, and the Total row. -/
structure CostBreakdownView where
  cost : String
  processingFee : String
  total : String
deriving DecidableEq, Repr

/-- Embedding of the `CostBreakdown` component's rendered amounts, as
invoked by `StripeCheckout` with `price.baseCostInCents`,
`price.processingFeeInCents`, `price.totalInCents`. -/
def CostBreakdown (costInCents processingFeeInCents totalInCents : Nat) :
    CostBreakdownView :=
  { cost := formatCurrency costInCents
    processingFee := formatCurrency processingFeeInCents
    total := formatCurrency totalInCents }

/-- Reference formatter written from the spec's words, independently of
the source: "divide by 100, fix to two decimal places, prefix with `$`".
The two-decimal rendering is obtained by printing `100 + cents % 100`
(a three-digit number `1ff`) and dropping the leading `1`. -/
def specFormatCurrency (cents : Nat) : String :=
  "$" ++ toString (cents / 100) ++ "." ++
    (toString (100 + cents % 100)).drop 1

example : formatCurrency 999 = "$9.99" := by decide
example : formatCurrency 58 = "$0.58" := by decide
example : formatCurrency 1057 = "$10.57" := by decide
example : specFormatCurrency 7 = "$0.07" := by decide

theorem pad_two_digits_eq : ∀ f < 100,
    (if f < 10 then "0" ++ toString f else toString f) =
      (toString (100 + f)).drop 1 := by decide

theorem formatCurrency_eq_spec (cents : Nat) :
    formatCurrency cents = specFormatCurrency cents := by
  have h : cents % 100 < 100 := Nat.mod_lt _ (by norm_num)
  unfold formatCurrency specFormatCurrency
  rw [pad_two_digits_eq (cents % 100) h]

/-- C1: a submission whose confirmation resolves without an error field
invokes `onComplete` exactly once, returns `isSubmitting` to `false`,
and, when no error was set before the submission, leaves `error` unset
afterwards. -/
theorem successful_confirmation_calls_onComplete (els : Nat) (s : CheckoutState) :
    onCompleteCount (handleSubmit (some ()) (some els) (ConfirmOutcome.resolved none)) = 1 ∧
    (submitState (some ()) (some els) s (ConfirmOutcome.resolved none)).isSubmitting = false ∧
    (s.error = none →
      (submitState (some ()) (some els) s (ConfirmOutcome.resolved none)).error = none) := by
  refine ⟨rfl, ?_, fun h => ?_⟩ <;>
    simp [submitState, runEvents, handleSubmit, applyEvent, *]

theorem successful_confirmation_calls_onComplete_witness :
    (submitState (some ()) (some 0)
        { isLoading := false, isSubmitting := false, error := none }
        (ConfirmOutcome.resolved none)).error = none :=
  (successful_confirmation_calls_onComplete 0
    { isLoading := false, isSubmitting := false, error := none }).2.2 rfl

/-- C2: a submission whose confirmation resolves with a structured error
carrying message `m` sets `error` to `m` verbatim, does not invoke
`onComplete`, and returns `isSubmitting` to `false`. -/
theorem error_result_sets_message (els : Nat) (s : CheckoutState) (m : String) :
    (submitState (some ()) (some els) s
        (ConfirmOutcome.resolved (some ⟨some m⟩))).error = some m ∧
    onCompleteCount (handleSubmit (some ()) (some els)
        (ConfirmOutcome.resolved (some ⟨some m⟩))) = 0 ∧
    (submitState (some ()) (some els) s
        (ConfirmOutcome.resolved (some ⟨some m⟩))).isSubmitting = false := by
  refine ⟨?_, rfl, ?_⟩ <;>
    simp [submitState, runEvents, handleSubmit, applyEvent]

/-- C3: a submission whose confirmation raises an exception sets the
displayed error to exactly "Payment unsupported" when the raised message
contains the substring `"Failed to set the 'href' property"`, and to the
raised message as-is otherwise; in both cases `onComplete` is not invoked
and `isSubmitting` returns to `false`. -/
theorem raised_exception_sets_error (els : Nat) (s : CheckoutState) (msg : String) :
    ((hrefFailureMessage.toList <:+: msg.toList →
        (submitState (some ()) (some els) s (ConfirmOutcome.raised msg)).error =
          some "Payment unsupported") ∧
      (¬ hrefFailureMessage.toList <:+: msg.toList →
        (submitState (some ()) (some els) s (ConfirmOutcome.raised msg)).error =
          some msg)) ∧
    onCompleteCount (handleSubmit (some ()) (some els) (ConfirmOutcome.raised msg)) = 0 ∧
    (submitState (some ()) (some els) s (ConfirmOutcome.raised msg)).isSubmitting = false := by
  by_cases h : hrefFailureMessage.data <:+: msg.data <;>
    simp [submitState, runEvents, handleSubmit, applyEvent, onCompleteCount,
      String.toList, h]

theorem raised_exception_sets_error_witness :
    (submitState (some ()) (some 0) initialState
        (ConfirmOutcome.raised hrefFailureMessage)).error = some "Payment unsupported" :=
  (raised_exception_sets_error 0 initialState hrefFailureMessage).1.1 ⟨[], [], by simp⟩

/-- C4 counterexample: with an error already set ("card_declined") and
both dependencies available, a submission whose confirmation resolves
successfully does not clear the error; `handleSubmit` contains no
`setError(undefined)`, so the previously set error stays active. -/
theorem submission_not_clearing_error_cex :
    ¬ ((submitState (some ()) (some 0)
        { isLoading := false, isSubmitting := false, error := some "card_declined" }
        (ConfirmOutcome.resolved none)).error = none) := by decide

/-- C4 (amended): beginning a new submission does not clear a previously
set error; a submission whose confirmation resolves successfully leaves
`error` exactly as it was. The error is replaced when a resolution
carries a new error message, and cleared only by a change event on the
payment input widget. -/
theorem error_persists_through_successful_submission (els : Nat)
    (s : CheckoutState) (m : String) :
    (submitState (some ()) (some els) s (ConfirmOutcome.resolved none)).error = s.error ∧
    (submitState (some ()) (some els) s
        (ConfirmOutcome.resolved (some ⟨some m⟩))).error = some m ∧
    (handleChange s).error = none := by
  refine ⟨?_, ?_, rfl⟩ <;>
    simp [submitState, runEvents, handleSubmit, applyEvent]

/-- C5: invoking `handleSubmit` while `stripe` or `elements` is
unavailable changes no component state and performs no external
confirmation call. -/
theorem unavailable_guard_noop (stripe : Option Unit) (elements : Option Nat)
    (s : CheckoutState) (outcome : ConfirmOutcome)
    (h : stripe = none ∨ elements = none) :
    submitState stripe elements s outcome = s ∧
    confirmCallArgs (handleSubmit stripe elements outcome) = [] := by
  cases stripe <;> cases elements <;>
    simp_all [submitState, runEvents, handleSubmit, confirmCallArgs]

theorem unavailable_guard_noop_witness :
    submitState none none initialState (ConfirmOutcome.resolved none) = initialState ∧
    confirmCallArgs (handleSubmit none none (ConfirmOutcome.resolved none)) = [] :=
  unavailable_guard_noop none none initialState (ConfirmOutcome.resolved none) (Or.inl rfl)

/-- C6: the Purchase button is disabled exactly when a submission is in
flight, `stripe` is unavailable, `elements` is unavailable, or the
widget has not yet reported ready; in particular it is disabled whenever
`isLoading` is true, and enabled once the ready event fired with no
submission in flight and both dependencies available. -/
theorem purchase_disabled_iff (stripe : Option Unit) (elements : Option Nat)
    (s : CheckoutState) (els : Nat) :
    (purchaseDisabled stripe elements s = true ↔
      (s.isSubmitting = true ∨ stripe = none ∨ elements = none ∨ s.isLoading = true)) ∧
    (s.isLoading = true → purchaseDisabled stripe elements s = true) ∧
    purchaseDisabled (some ()) (some els)
      (handleReady { s with isSubmitting := false }) = false := by
  refine ⟨?_, fun h => ?_, ?_⟩ <;>
    simp [purchaseDisabled, handleReady, Option.isNone_iff_eq_none, or_assoc, *]

theorem purchase_disabled_iff_witness :
    purchaseDisabled (some ()) (some 0)
      { isLoading := true, isSubmitting := false, error := none } = true :=
  (purchase_disabled_iff (some ()) (some 0)
    { isLoading := true, isSubmitting := false, error := none } 0).2.1 rfl

/-- C7: `CostBreakdown` renders each amount as the cents divided by 100,
fixed to exactly two decimal places and prefixed with `$` (the rule the
spec states, embodied by `specFormatCurrency`); on the example pricing
`999 / 58 / 1057` it displays `$9.99`, `$0.58`, `$10.57`. -/
theorem costBreakdown_formats_two_decimals (p : PricingDetails) :
    CostBreakdown p.baseCostInCents p.processingFeeInCents p.totalInCents =
      { cost := specFormatCurrency p.baseCostInCents
        processingFee := specFormatCurrency p.processingFeeInCents
        total := specFormatCurrency p.totalInCents } ∧
    CostBreakdown 999 58 1057 =
      { cost := "$9.99", processingFee := "$0.58", total := "$10.57" } := by
  refine ⟨?_, by decide⟩
  simp [CostBreakdown, formatCurrency_eq_spec]

/-- C8: a change event on the payment input widget clears the displayed
error in every prior state, leaving `isLoading` and `isSubmitting`
untouched. -/
theorem change_clears_error (s : CheckoutState) :
    (handleChange s).error = none ∧
    (handleChange s).isLoading = s.isLoading ∧
    (handleChange s).isSubmitting = s.isSubmitting := by
  simp [handleChange]

/-- C9: a valid submission attempt (both dependencies available) first
sets `isSubmitting` to true and then performs the external confirmation
call exactly once, passing the elements handle, the fallback redirect
target `http://cartridge.gg`, and the `if_required` redirect policy; no
other confirmation call occurs. -/
theorem valid_submission_single_confirm (els : Nat) (outcome : ConfirmOutcome) :
    confirmCallArgs (handleSubmit (some ()) (some els) outcome) =
      [⟨els, "http://cartridge.gg", "if_required"⟩] ∧
    ∃ rest, handleSubmit (some ()) (some els) outcome =
      Event.setIsSubmitting true ::
        Event.confirmPayment ⟨els, "http://cartridge.gg", "if_required"⟩ :: rest := by
  refine ⟨?_, ⟨_, rfl⟩⟩
  rcases outcome with (_ | err) | msg
  · rfl
  · rfl
  · by_cases h : hrefFailureMessage.data <:+: msg.data <;>
      simp [handleSubmit, confirmCallArgs, String.toList, h]

/-- C10: a confirmation resolving with an error whose message field is
absent still puts the component in the error state: `error` becomes the
message of an `Error` constructed from `undefined`, i.e. the empty
string, and the banner renders with title "Stripe Checkout Error" and an
empty description. -/
theorem absent_error_message_renders_empty (els : Nat) (s : CheckoutState) :
    (submitState (some ()) (some els) s
        (ConfirmOutcome.resolved (some ⟨none⟩))).error = some "" ∧
    errorBanner (submitState (some ()) (some els) s
        (ConfirmOutcome.resolved (some ⟨none⟩))) =
      some ("Stripe Checkout Error", "") := by
  refine ⟨?_, ?_⟩ <;>
    simp [submitState, runEvents, handleSubmit, applyEvent, errorBanner]
